import Mathlib

/-!
Verification development for the browser sales-enablement dashboard,
centred on the real-time audio practice/grooming session controller
(`src/components/PracticeSession.tsx`, two component variants), the
video generator error branch (`src/components/VideoGenerator.tsx`) and
the Firestore document fetch (`src/unnamed/part_000`).

Conventions of the shallow embedding:
* Audio clock times and sample values are rationals (`ℚ`); the code's
  IEEE doubles carry exact values in all scheduling arithmetic modelled
  here, and the claims are about the computed expressions.
* JavaScript strings that carry binary data are modelled as their lists
  of character codes (`List Nat`); base64 text is `List Char`.
* `Uint8Array` contents are `List Nat` with entries `< 256`; the store
  semantics (`x % 256`) is made explicit where the code writes bytes.
* Mutable React refs and state hooks become fields of explicit state
  records; each event handler is a pure state transformer applied in
  the source's statement order (single-threaded event loop).
-/

/-! ## Base64 helpers (`encode` / `decode`, both variants, identical text)

The component defines
  `encode`: builds a binary string whose character codes are exactly the
  bytes (`String.fromCharCode` per byte) and applies the host `btoa`;
  `decode`: applies the host `atob` and reads the character codes back
  into a `Uint8Array`.
`btoa`/`atob` are the standard base64 primitives; they are modelled
below by the standard algorithm (RFC 4648 alphabet, `=` padding),
operating on the code list of the binary string. `atob` is modelled on
well-formed base64 input (which is all `btoa` ever produces). -/

/-- Standard base64 alphabet, index `n < 64` to character. -/
def b64Char (n : Nat) : Char :=
  Char.ofNat
    (if n < 26 then 65 + n
     else if n < 52 then 71 + n
     else if n < 62 then n - 4
     else if n = 62 then 43
     else 47)

/-- Inverse of the base64 alphabet (0 on characters outside it). -/
def b64Val (c : Char) : Nat :=
  if 65 ≤ c.toNat ∧ c.toNat ≤ 90 then c.toNat - 65
  else if 97 ≤ c.toNat ∧ c.toNat ≤ 122 then c.toNat - 71
  else if 48 ≤ c.toNat ∧ c.toNat ≤ 57 then c.toNat + 4
  else if c.toNat = 43 then 62
  else if c.toNat = 47 then 63
  else 0

/-- Host `btoa` on the character codes of the binary string: 3 input
bytes become 4 alphabet characters; a 1- or 2-byte tail is padded
with `=`. -/
def btoa : List Nat → List Char
  | [] => []
  | [a] => [b64Char (a / 4), b64Char (a % 4 * 16), '=', '=']
  | [a, b] => [b64Char (a / 4), b64Char (a % 4 * 16 + b / 16),
               b64Char (b % 16 * 4), '=']
  | a :: b :: d :: rest =>
      b64Char (a / 4) :: b64Char (a % 4 * 16 + b / 16) ::
      b64Char (b % 16 * 4 + d / 64) :: b64Char (d % 64) :: btoa rest

/-- Host `atob` on well-formed base64 text: each 4-character group
yields 3 bytes, or 1 or 2 bytes at a trailing padded group. -/
def atob : List Char → List Nat
  | c1 :: c2 :: c3 :: c4 :: rest =>
      if c3 = '=' then [b64Val c1 * 4 + b64Val c2 / 16]
      else if c4 = '=' then
        [b64Val c1 * 4 + b64Val c2 / 16, b64Val c2 % 16 * 16 + b64Val c3 / 4]
      else
        (b64Val c1 * 4 + b64Val c2 / 16) ::
        (b64Val c2 % 16 * 16 + b64Val c3 / 4) ::
        (b64Val c3 % 4 * 64 + b64Val c4) :: atob rest
  | _ => []

/-- `encode` from the component: byte list to binary string (character
codes are the bytes themselves), then `btoa`. -/
def encode (bytes : List Nat) : List Char := btoa bytes

/-- `decode` from the component: `atob`, then each character code is
stored into a `Uint8Array` (store wraps modulo 256). -/
def decode (base64 : List Char) : List Nat := (atob base64).map (· % 256)

theorem b64Val_b64Char_fin : ∀ n : Fin 64, b64Val (b64Char n.val) = n.val := by
  decide

theorem b64Char_ne_pad_fin : ∀ n : Fin 64, b64Char n.val ≠ '=' := by
  decide

theorem b64Val_b64Char {n : Nat} (h : n < 64) : b64Val (b64Char n) = n :=
  b64Val_b64Char_fin ⟨n, h⟩

theorem b64Char_ne_pad {n : Nat} (h : n < 64) : b64Char n ≠ '=' :=
  b64Char_ne_pad_fin ⟨n, h⟩

theorem pack_div16 (x y : Nat) (hy : y < 16) : (x * 16 + y) / 16 = x := by
  rw [Nat.add_comm, Nat.add_mul_div_right _ _ (by norm_num : (0:Nat) < 16),
    Nat.div_eq_of_lt hy, Nat.zero_add]

theorem pack_mod16 (x y : Nat) (hy : y < 16) : (x * 16 + y) % 16 = y := by
  rw [Nat.add_comm, Nat.add_mul_mod_self_right, Nat.mod_eq_of_lt hy]

theorem pack_div4 (x y : Nat) (hy : y < 4) : (x * 4 + y) / 4 = x := by
  rw [Nat.add_comm, Nat.add_mul_div_right _ _ (by norm_num : (0:Nat) < 4),
    Nat.div_eq_of_lt hy, Nat.zero_add]

theorem pack_mod4 (x y : Nat) (hy : y < 4) : (x * 4 + y) % 4 = y := by
  rw [Nat.add_comm, Nat.add_mul_mod_self_right, Nat.mod_eq_of_lt hy]

theorem mul16_div16 (x : Nat) : x * 16 / 16 = x := by omega

theorem mul4_div4 (x : Nat) : x * 4 / 4 = x := by omega

theorem atob_btoa : ∀ bs : List Nat, (∀ x ∈ bs, x < 256) → atob (btoa bs) = bs
  | [], _ => rfl
  | [a], h => by
    have ha : a < 256 := h a (by simp)
    have h1 : a / 4 < 64 := by omega
    have h2 : a % 4 * 16 < 64 := by omega
    simp only [btoa, atob]
    rw [if_true, b64Val_b64Char h1, b64Val_b64Char h2, mul16_div16]
    have e1 : a / 4 * 4 + a % 4 = a := by omega
    rw [e1]
  | [a, b], h => by
    have ha : a < 256 := h a (by simp)
    have hb : b < 256 := h b (by simp)
    have h1 : a / 4 < 64 := by omega
    have h2 : a % 4 * 16 + b / 16 < 64 := by omega
    have h3 : b % 16 * 4 < 64 := by omega
    simp only [btoa, atob]
    rw [if_true, b64Val_b64Char h1, b64Val_b64Char h2, b64Val_b64Char h3]
    have e1 : a / 4 * 4 + (a % 4 * 16 + b / 16) / 16 = a := by
      rw [pack_div16 _ _ (by omega)]; omega
    have e2 : (a % 4 * 16 + b / 16) % 16 * 16 + b % 16 * 4 / 4 = b := by
      rw [pack_mod16 _ _ (by omega), mul4_div4]; omega
    rw [e1, e2, if_neg (b64Char_ne_pad h3)]
  | a :: b :: d :: rest, h => by
    have ha : a < 256 := h a (by simp)
    have hb : b < 256 := h b (by simp)
    have hd : d < 256 := h d (by simp)
    have h1 : a / 4 < 64 := by omega
    have h2 : a % 4 * 16 + b / 16 < 64 := by omega
    have h3 : b % 16 * 4 + d / 64 < 64 := by omega
    have h4 : d % 64 < 64 := by omega
    have ih := atob_btoa rest (by
      intro x hx
      exact h x (by simp [hx]))
    simp only [btoa, atob]
    rw [if_neg (b64Char_ne_pad h3), if_neg (b64Char_ne_pad h4),
      b64Val_b64Char h1, b64Val_b64Char h2, b64Val_b64Char h3, b64Val_b64Char h4]
    have e1 : a / 4 * 4 + (a % 4 * 16 + b / 16) / 16 = a := by
      rw [pack_div16 _ _ (by omega)]; omega
    have e2 : (a % 4 * 16 + b / 16) % 16 * 16 + (b % 16 * 4 + d / 64) / 4 = b := by
      rw [pack_mod16 _ _ (by omega), pack_div4 _ _ (by omega)]; omega
    have e3 : (b % 16 * 4 + d / 64) % 4 * 64 + d % 64 = d := by
      rw [pack_mod4 _ _ (by omega)]; omega
    rw [e1, e2, e3, ih]

theorem map_mod_256_of_lt : ∀ bs : List Nat, (∀ x ∈ bs, x < 256) →
    bs.map (· % 256) = bs := by
  intro bs h
  induction bs with
  | nil => rfl
  | cons a t ih =>
    have ha : a < 256 := h a (by simp)
    simp only [List.map_cons, Nat.mod_eq_of_lt ha, List.cons.injEq, true_and]
    exact ih (fun x hx => h x (by simp [hx]))

/-! ## Outbound PCM path (`onaudioprocess`, both variants)

The capture callback reads one fixed-size block of 32-bit float samples,
stores `inputData[i] * 32768` into an `Int16Array` (ECMAScript ToInt16:
truncate toward zero, wrap modulo 2^16 into `[-32768, 32767]`), exposes
the little-endian bytes via `new Uint8Array(int16.buffer)`, base64
encodes them with `encode`, and sends one frame tagged
`audio/pcm;rate=16000` per callback. -/

/-- JavaScript number-to-integer conversion: truncation toward zero. -/
def jsTrunc (x : ℚ) : Int := if x < 0 then -(⌊-x⌋) else ⌊x⌋

/-- The `Int16Array` element store `int16[i] = inputData[i] * 32768`:
ToInt16 of the product (truncate, reduce modulo 2^16, re-centre into
the signed 16-bit range). -/
def toInt16 (x : ℚ) : Int :=
  if 32768 ≤ jsTrunc (x * 32768) % 65536 then jsTrunc (x * 32768) % 65536 - 65536
  else jsTrunc (x * 32768) % 65536

/-- The sample conversion as the specification words it: the value
`s * 32768` truncated, with modulo 2^16 wrap into the signed range. -/
def specToInt16 (x : ℚ) : Int := (jsTrunc (x * 32768) + 32768) % 65536 - 32768

/-- Little-endian byte view of one stored 16-bit sample, as read back by
`new Uint8Array(int16.buffer)`. -/
def int16ToBytes (v : Int) : List Nat :=
  [(v % 65536).toNat % 256, (v % 65536).toNat / 256]

/-- The byte content of one outbound PCM block. -/
def pcmBytes (samples : List ℚ) : List Nat :=
  (samples.map toInt16).flatMap int16ToBytes

/-- An outbound realtime-input frame (`pcmBlob`). -/
structure Frame where
  data : List Char
  mimeType : String

/-- The fixed block size passed to `createScriptProcessor(4096, 1, 1)`. -/
def scriptProcessorBlockSize : Nat := 4096

/-- Body of `onaudioprocess`: the single frame built and sent for one
captured block. -/
def onaudioprocessFrame (samples : List ℚ) : Frame :=
  { data := encode (pcmBytes samples), mimeType := "audio/pcm;rate=16000" }

/-- One `sendRealtimeInput` call per callback invocation: the frames
sent for a sequence of captured blocks, in capture order. -/
def sentFrames (blocks : List (List ℚ)) : List Frame :=
  blocks.map onaudioprocessFrame

theorem toInt16_eq_spec (x : ℚ) : toInt16 x = specToInt16 x := by
  unfold toInt16 specToInt16
  generalize jsTrunc (x * 32768) = n
  split <;> omega

/-! ## Inbound playback scheduling (`onmessage` audio branch, both variants)

On each inbound audio payload the handler executes
  `nextStartTimeRef.current = Math.max(nextStartTimeRef.current, outputCtx.currentTime)`,
decodes the payload into a buffer, starts a source at the cursor, adds
it to the live set, and advances the cursor by the buffer duration.
`Source` carries the scheduled start, the duration and a stopped flag;
the JS `Set` iterates in insertion order and is modelled as a list.
Sources removed from the set (by `onended` or by a clearing handler)
remain in the heap; they are tracked in `detached`. -/

/-- A playback `AudioBufferSourceNode`. -/
structure Source where
  start : ℚ
  dur : ℚ
  stopped : Bool
deriving DecidableEq

/-- The raw `source.stop()` call, which may throw (modelled as an error
whenever the source was already stopped). -/
def Source.stopCall (s : Source) : Except Unit Source :=
  if s.stopped then Except.error () else Except.ok { s with stopped := true }

/-- The guarded call `try { source.stop(); } catch (e) {}`. -/
def Source.stopCaught (s : Source) : Source :=
  match s.stopCall with
  | Except.ok s' => s'
  | Except.error _ => s

theorem stopCaught_stopped (s : Source) :
    s.stopCaught = { s with stopped := true } := by
  unfold Source.stopCaught Source.stopCall
  split
  · rename_i s' heq
    split at heq
    · cases heq
    · cases heq; rfl
  · rename_i heq
    split at heq
    · rename_i hs
      cases s
      simp_all
    · cases heq

/-- The playback side of the session: live source set, detached (heap)
sources, and the scheduling cursor `nextStartTimeRef`. -/
structure AudioWorld where
  live : List Source
  detached : List Source
  nextStartTime : ℚ
deriving DecidableEq

/-- The audio branch of `onmessage` for one inbound buffer: raise the
cursor to the playback clock, schedule at the cursor, advance by the
buffer duration, add the source to the live set. -/
def audioStep (now dur : ℚ) (w : AudioWorld) : AudioWorld :=
  { live := w.live ++ [{ start := max w.nextStartTime now, dur := dur, stopped := false }],
    detached := w.detached,
    nextStartTime := max w.nextStartTime now + dur }

/-- Iterated audio branch over a sequence of inbound buffers, each a
pair (playback clock at receipt, buffer duration). -/
def runAudioSteps (w : AudioWorld) (events : List (ℚ × ℚ)) : AudioWorld :=
  events.foldl (fun w e => audioStep e.1 e.2 w) w

/-- The (start, duration) pairs scheduled by the audio branch starting
from cursor value `cursor`, in schedule order. -/
def schedList (cursor : ℚ) : List (ℚ × ℚ) → List (ℚ × ℚ)
  | [] => []
  | e :: rest => (max cursor e.1, e.2) :: schedList (max cursor e.1 + e.2) rest

/-- The cursor value after the audio branch has processed the events. -/
def cursorAfter (cursor : ℚ) : List (ℚ × ℚ) → ℚ
  | [] => cursor
  | e :: rest => cursorAfter (max cursor e.1 + e.2) rest

theorem runAudioSteps_schedList :
    ∀ (events : List (ℚ × ℚ)) (w : AudioWorld),
      (runAudioSteps w events).live =
        w.live ++ (schedList w.nextStartTime events).map
          (fun p => { start := p.1, dur := p.2, stopped := false }) ∧
      (runAudioSteps w events).nextStartTime = cursorAfter w.nextStartTime events ∧
      (runAudioSteps w events).detached = w.detached := by
  intro events
  induction events with
  | nil => intro w; simp [runAudioSteps, schedList, cursorAfter]
  | cons e rest ih =>
    intro w
    have h := ih (audioStep e.1 e.2 w)
    simp only [runAudioSteps, List.foldl_cons] at h ⊢
    refine ⟨?_, ?_, ?_⟩
    · rw [h.1]
      simp [audioStep, schedList]
    · rw [h.2.1]
      simp [audioStep, cursorAfter]
    · rw [h.2.2]
      simp [audioStep]

theorem schedList_length (c : ℚ) (es : List (ℚ × ℚ)) :
    (schedList c es).length = es.length := by
  induction es generalizing c with
  | nil => rfl
  | cons e rest ih => simp [schedList, ih]

theorem schedList_getD_succ :
    ∀ (es : List (ℚ × ℚ)) (c : ℚ) (k : Nat), k + 1 < es.length →
      (schedList c es).getD (k + 1) (0, 0) =
        (max ((es.getD (k + 1) (0, 0)).1)
             (((schedList c es).getD k (0, 0)).1 + ((schedList c es).getD k (0, 0)).2),
         (es.getD (k + 1) (0, 0)).2)
  | [], _, k, h => by simp at h
  | e :: rest, c, 0, h => by
    match rest, h with
    | f :: rest', _ =>
      simp [schedList, max_comm]
  | e :: rest, c, (k + 1), h => by
    have hlt : k + 1 < rest.length := by
      simpa [List.length_cons, Nat.succ_lt_succ_iff] using h
    have := schedList_getD_succ rest (max c e.1 + e.2) k hlt
    simpa [schedList, List.getD_cons_succ] using this

theorem cursorAfter_take :
    ∀ (es : List (ℚ × ℚ)) (c : ℚ) (k : Nat), k < es.length →
      cursorAfter c (es.take (k + 1)) =
        ((schedList c es).getD k (0, 0)).1 + ((schedList c es).getD k (0, 0)).2
  | [], _, k, h => by simp at h
  | e :: rest, c, 0, h => by
    cases rest <;> simp [schedList, cursorAfter]
  | e :: rest, c, (k + 1), h => by
    have hlt : k < rest.length := by
      simpa [List.length_cons, Nat.succ_lt_succ_iff] using h
    have := cursorAfter_take rest (max c e.1 + e.2) k hlt
    simpa [schedList, cursorAfter, List.getD_cons_succ] using this

/-! ## Session controller state (both `PracticeSession` variants)

Variant 1 is the grooming-capable component (first in the file, with
`sessionMode`, an `analyzing` status, and no `interrupted` handling);
variant 2 is the roleplay-only component (second in the file, with the
`interrupted` handler). React `useState`/`useRef` cells become fields;
handlers are applied in source statement order. -/

/-- The `status` state hook values. -/
inductive Status
  | idle | connecting | active | error | analyzing
deriving DecidableEq

/-- `SessionMode` of the grooming-capable variant. -/
inductive SessionMode
  | roleplay | grooming
deriving DecidableEq

/-- A microphone `MediaStreamTrack`. -/
structure Track where
  stopped : Bool
deriving DecidableEq

/-- The call `track.stop()`. -/
def Track.stop (t : Track) : Track := { t with stopped := true }

/-- One completed `{user, ai}` exchange in the transcription history. -/
structure Turn where
  user : String
  ai : String
deriving DecidableEq

/-- The fields of a `LiveServerMessage` that the handlers read. -/
structure LiveServerMessage where
  audioData : Option (List Char)
  inputTranscription : Option String
  outputTranscription : Option String
  turnComplete : Bool
  interrupted : Bool

/-- Duration of the playback buffer built by
`decodeAudioData(decode(base64Audio), outputCtx, 24000, 1)`: the byte
array is viewed as 16-bit frames (`Int16Array`), one channel, and
`AudioBuffer.duration` is frame count over the 24000 Hz sample rate. -/
def bufferDuration (base64Audio : List Char) : ℚ :=
  (((decode base64Audio).length / 2 : Nat) : ℚ) / 24000

namespace V1

/-- State of the grooming-capable variant: mode toggle, connection
status, turn history, on-screen partial transcripts (`curUser`/`curAi`
for `currentTranscription`), the accumulator refs, the channel handle,
the microphone stream with its tracks, previously released tracks, and
the playback world. -/
structure State where
  sessionMode : SessionMode
  isActive : Bool
  status : Status
  transcription : List Turn
  curUser : String
  curAi : String
  userRef : String
  aiRef : String
  session : Bool
  stream : Option (List Track)
  released : List Track
  audio : AudioWorld
deriving DecidableEq

/-- `stopPractice` of the grooming-capable variant: deactivate, set
status to idle unless it is `analyzing`, close and null the channel,
stop the stream's tracks and null the stream, stop (guarded) and clear
the live sources, reset the cursor. The transcript refs are left
untouched. -/
def stopPractice (s : State) : State :=
  { s with
    isActive := false
    status := if s.status = Status.analyzing then s.status else Status.idle
    session := false
    stream := none
    released := s.released ++ (s.stream.getD []).map Track.stop
    audio := { live := []
               detached := s.audio.detached ++ s.audio.live.map Source.stopCaught
               nextStartTime := 0 } }

/-- First `onmessage` block: schedule an inbound audio payload, if any. -/
def audioBranch (m : LiveServerMessage) (now : ℚ) (s : State) : State :=
  match m.audioData with
  | some b => { s with audio := audioStep now (bufferDuration b) s.audio }
  | none => s

/-- Second `onmessage` block: accumulate an inbound user-speech partial
transcript, if any. -/
def inputTranscriptionBranch (m : LiveServerMessage) (s : State) : State :=
  match m.inputTranscription with
  | some t => { s with userRef := s.userRef ++ t, curUser := s.userRef ++ t }
  | none => s

/-- Third `onmessage` block: accumulate an inbound agent-speech partial
transcript, if any (an independent `if` in this variant). -/
def outputTranscriptionBranch (m : LiveServerMessage) (s : State) : State :=
  match m.outputTranscription with
  | some t => { s with aiRef := s.aiRef ++ t, curAi := s.aiRef ++ t }
  | none => s

/-- Fourth `onmessage` block: on `turnComplete`, append the accumulated
pair to the history; the clearing of the accumulators is guarded by
`sessionMode === 'roleplay'`. -/
def turnCompleteBranch (m : LiveServerMessage) (s : State) : State :=
  if m.turnComplete then
    let s4 := { s with
      transcription := s.transcription ++ [{ user := s.userRef, ai := s.aiRef }] }
    if s4.sessionMode = SessionMode.roleplay then
      { s4 with userRef := "", aiRef := "", curUser := "", curAi := "" }
    else s4
  else s

/-- `onmessage` of the grooming-capable variant: the four blocks in
source order. There is no `interrupted` handling in this variant. -/
def onmessage (m : LiveServerMessage) (now : ℚ) (s : State) : State :=
  turnCompleteBranch m
    (outputTranscriptionBranch m (inputTranscriptionBranch m (audioBranch m now s)))

/-- `startPractice`: set status to connecting; `getUserMedia` either
fails (caught: status error, stream untouched) or yields the stream,
which is stored; then `ai.live.connect` either rejects (caught: status
error, stream still stored) or opens, upon which `onopen` sets the
session active. -/
def startPractice (mic : Option (List Track)) (connectOk : Bool) (s : State) : State :=
  let s0 := { s with status := Status.connecting }
  match mic with
  | none => { s0 with status := Status.error }
  | some ts =>
    let s1 := { s0 with stream := some ts }
    if connectOk then { s1 with status := Status.active, isActive := true, session := true }
    else { s1 with status := Status.error }

/-- `onerror` callback: `setStatus('error')` followed by `stopPractice()`. -/
def onerror (s : State) : State := stopPractice { s with status := Status.error }

/-- `onclose` callback. -/
def onclose (s : State) : State := stopPractice s

end V1

namespace V2

/-- State of the roleplay-only variant (no mode toggle, no `analyzing`
status value in use). -/
structure State where
  isActive : Bool
  status : Status
  transcription : List Turn
  curUser : String
  curAi : String
  userRef : String
  aiRef : String
  session : Bool
  stream : Option (List Track)
  released : List Track
  audio : AudioWorld
deriving DecidableEq

/-- `stopPractice` of the roleplay-only variant: additionally clears
both transcript accumulator refs and sets status to idle
unconditionally. -/
def stopPractice (s : State) : State :=
  { s with
    isActive := false
    status := Status.idle
    session := false
    stream := none
    released := s.released ++ (s.stream.getD []).map Track.stop
    audio := { live := []
               detached := s.audio.detached ++ s.audio.live.map Source.stopCaught
               nextStartTime := 0 }
    userRef := ""
    aiRef := "" }

/-- First `onmessage` block: schedule an inbound audio payload, if any. -/
def audioBranch (m : LiveServerMessage) (now : ℚ) (s : State) : State :=
  match m.audioData with
  | some b => { s with audio := audioStep now (bufferDuration b) s.audio }
  | none => s

/-- Second `onmessage` block: the `if`/`else if` pair accumulating one
of the two partial-transcript streams. -/
def transcriptionBranch (m : LiveServerMessage) (s : State) : State :=
  match m.inputTranscription with
  | some t => { s with userRef := s.userRef ++ t, curUser := s.userRef ++ t }
  | none =>
    match m.outputTranscription with
    | some t => { s with aiRef := s.aiRef ++ t, curAi := s.aiRef ++ t }
    | none => s

/-- Third `onmessage` block: on `turnComplete`, append the accumulated
pair to the history and clear both accumulators unconditionally. -/
def turnCompleteBranch (m : LiveServerMessage) (s : State) : State :=
  if m.turnComplete then
    { s with
      transcription := s.transcription ++ [{ user := s.userRef, ai := s.aiRef }]
      userRef := "", aiRef := "", curUser := "", curAi := "" }
  else s

/-- Fourth `onmessage` block: on `interrupted`, stop (guarded) every
live source, clear the set and reset the cursor to zero. -/
def interruptedBranch (m : LiveServerMessage) (s : State) : State :=
  if m.interrupted then
    { s with audio := { live := []
                        detached := s.audio.detached ++ s.audio.live.map Source.stopCaught
                        nextStartTime := 0 } }
  else s

/-- `onmessage` of the roleplay-only variant: the four blocks in source
order. -/
def onmessage (m : LiveServerMessage) (now : ℚ) (s : State) : State :=
  interruptedBranch m
    (turnCompleteBranch m (transcriptionBranch m (audioBranch m now s)))

/-- `startPractice` of the roleplay-only variant (same control flow as
the grooming-capable one). -/
def startPractice (mic : Option (List Track)) (connectOk : Bool) (s : State) : State :=
  let s0 := { s with status := Status.connecting }
  match mic with
  | none => { s0 with status := Status.error }
  | some ts =>
    let s1 := { s0 with stream := some ts }
    if connectOk then { s1 with status := Status.active, isActive := true, session := true }
    else { s1 with status := Status.error }

/-- `onerror` callback: `setStatus('error')` followed by `stopPractice()`. -/
def onerror (s : State) : State := stopPractice { s with status := Status.error }

/-- `onclose` callback. -/
def onclose (s : State) : State := stopPractice s

end V2

/-! ## Video generator failure branch (`handleGenerateVideo`)

The `ai.models.generateVideos(params)` call sits in an inner
`try`/`catch`. The catch inspects `genErr.message`: a message containing
"429" or "RESOURCE_EXHAUSTED" is rethrown as the quota message; failing
that, a message containing "Requested entity was not found" triggers
`window.aistudio.openSelectKey()` and is rethrown as the re-select-key
message; anything else is rethrown unchanged. The outer catch surfaces
`err.message || "Synthesis failed."` via `setError`. -/

/-- Whether `pattern` matches at the head of the text. -/
def leadMatch : List Char → List Char → Bool
  | [], _ => true
  | _ :: _, [] => false
  | p :: ps, c :: cs => (p = c) && leadMatch ps cs

/-- Whether `pattern` occurs anywhere in the text. -/
def infixSearch (pattern : List Char) : List Char → Bool
  | [] => leadMatch pattern []
  | c :: cs => leadMatch pattern (c :: cs) || infixSearch pattern cs

/-- JavaScript `String.prototype.includes`. -/
def containsSub (msg pattern : String) : Bool :=
  infixSearch pattern.toList msg.toList

/-- Observable outcome of a failed generation call: the surfaced error
text and whether the key re-selection remediation was invoked. -/
structure GenVideosOutcome where
  surfaced : String
  reselectInvoked : Bool
deriving DecidableEq

/-- The surfaced user-facing "quota exhausted" message. -/
def quotaMessage : String := "Quota exhausted. Check AI Studio billing."

/-- The surfaced user-facing re-select-key message. -/
def reselectMessage : String := "API configuration reset. Please re-select your key."

/-- Combined effect of the inner catch around `generateVideos` and the
outer catch, for a failure whose error message is `msg`. -/
def handleGenerateVideoFailure (msg : String) : GenVideosOutcome :=
  if containsSub msg "429" || containsSub msg "RESOURCE_EXHAUSTED" then
    { surfaced := quotaMessage, reselectInvoked := false }
  else if containsSub msg "Requested entity was not found" then
    { surfaced := reselectMessage, reselectInvoked := true }
  else
    { surfaced := if msg = "" then "Synthesis failed." else msg, reselectInvoked := false }

/-! ## Firestore document fetch (`fetchDocumentsFromFirebase`)

The function returns `[]` when the database handle, the auth handle or
the signed-in user is missing; otherwise it runs a query filtered by
`userId`, maps each snapshot document (substituting `Date.now()` for a
falsy `timestamp?.toMillis()`, and chaining the same fallback for
`updatedAt`), and sorts client-side with the comparator
`(a, b) => b.timestamp - a.timestamp` (stable, descending). A failed
query is caught and yields `[]`. -/

/-- A raw snapshot document as read by `doc.data()`; `toMillis` values
of the optional `Timestamp` fields. -/
structure FirestoreDoc where
  id : String
  name : String
  content : String
  type : String
  timestamp : Option Int
  updatedAt : Option Int
deriving DecidableEq

/-- The mapped document shape returned to callers. -/
structure StoredDocument where
  id : String
  name : String
  content : String
  type : String
  timestamp : Int
  updatedAt : Int
deriving DecidableEq

/-- JavaScript `x?.toMillis() || y`: `y` when the field is absent or its
value is falsy (zero). -/
def jsFalsyOr (x : Option Int) (y : Int) : Int :=
  match x with
  | none => y
  | some v => if v = 0 then y else v

/-- The mapping applied to each snapshot document, with `now` the value
of `Date.now()`. -/
def toStoredDocument (now : Int) (d : FirestoreDoc) : StoredDocument :=
  { id := d.id
    name := d.name
    content := d.content
    type := d.type
    timestamp := jsFalsyOr d.timestamp now
    updatedAt := jsFalsyOr d.updatedAt (jsFalsyOr d.timestamp now) }

/-- Stable descending insertion by `timestamp`: an earlier document
keeps its place among equal timestamps. -/
def insertDesc (x : StoredDocument) : List StoredDocument → List StoredDocument
  | [] => [x]
  | y :: ys => if x.timestamp < y.timestamp then y :: insertDesc x ys else x :: y :: ys

/-- Stable descending sort by `timestamp`, the observable behaviour of
`docs.sort((a, b) => b.timestamp - a.timestamp)` (`Array.prototype.sort`
is stable). -/
def sortDesc : List StoredDocument → List StoredDocument
  | [] => []
  | x :: xs => insertDesc x (sortDesc xs)

/-- `fetchDocumentsFromFirebase`, with the environment made explicit:
whether `db` and `auth` are initialized, the signed-in user, the result
of the user-scoped query (`Except.error` for a thrown/rejected query),
and `Date.now()`. -/
def fetchDocumentsFromFirebase (db auth : Bool) (currentUser : Option String)
    (queryResult : Except Unit (List FirestoreDoc)) (now : Int) : List StoredDocument :=
  if !db || !auth || currentUser.isNone then []
  else
    match queryResult with
    | Except.error _ => []
    | Except.ok docs => sortDesc (docs.map (toStoredDocument now))

theorem insertDesc_perm (x : StoredDocument) :
    ∀ l : List StoredDocument, List.Perm (insertDesc x l) (x :: l)
  | [] => by simp [insertDesc]
  | y :: ys => by
    by_cases h : x.timestamp < y.timestamp
    · simp only [insertDesc, if_pos h]
      exact ((insertDesc_perm x ys).cons y).trans (List.Perm.swap x y ys)
    · simp [insertDesc, if_neg h]

theorem sortDesc_perm : ∀ l : List StoredDocument, List.Perm (sortDesc l) l
  | [] => by simp [sortDesc]
  | x :: xs =>
    (insertDesc_perm x (sortDesc xs)).trans ((sortDesc_perm xs).cons x)

theorem insertDesc_pairwise (x : StoredDocument) :
    ∀ l : List StoredDocument,
      l.Pairwise (fun a b => b.timestamp ≤ a.timestamp) →
      (insertDesc x l).Pairwise (fun a b => b.timestamp ≤ a.timestamp) := by
  intro l
  induction l with
  | nil => intro _; simp [insertDesc]
  | cons y ys ih =>
    intro hp
    rw [List.pairwise_cons] at hp
    by_cases h : x.timestamp < y.timestamp
    · simp only [insertDesc, if_pos h]
      rw [List.pairwise_cons]
      refine ⟨?_, ih hp.2⟩
      intro z hz
      have hz' := (insertDesc_perm x ys).mem_iff.mp hz
      rcases List.mem_cons.mp hz' with hz2 | hz2
      · subst hz2; exact le_of_lt h
      · exact hp.1 z hz2
    · simp only [insertDesc, if_neg h]
      rw [List.pairwise_cons]
      refine ⟨?_, List.pairwise_cons.mpr hp⟩
      intro z hz
      rcases List.mem_cons.mp hz with hz' | hz'
      · subst hz'; exact le_of_not_lt h
      · exact le_trans (hp.1 z hz') (le_of_not_lt h)

theorem sortDesc_pairwise : ∀ l : List StoredDocument,
    (sortDesc l).Pairwise (fun a b => b.timestamp ≤ a.timestamp) := by
  intro l
  induction l with
  | nil => simp [sortDesc]
  | cons x xs ih => exact insertDesc_pairwise x (sortDesc xs) ih

/-! ## Claims -/

/-- C1: during an active session, each inbound buffer is scheduled at
the maximum of the playback clock and the previously scheduled end
time: for the sequence of (clock, duration) events, buffer `k+1` starts
no earlier than buffer `k` ends (no overlap), no later than the maximum
of the clock at its receipt and buffer `k`'s end (no gap: the modelled
arithmetic is exact, so the bound holds with zero epsilon), and the
scheduling cursor after buffer `k+1` is exactly its start plus its
duration. -/
theorem C1_playback_scheduling (es : List (ℚ × ℚ)) (k : Nat)
    (h : k + 1 < es.length) :
    ((schedList 0 es).getD (k + 1) (0, 0)).1 ≥
      ((schedList 0 es).getD k (0, 0)).1 + ((schedList 0 es).getD k (0, 0)).2 ∧
    ((schedList 0 es).getD (k + 1) (0, 0)).1 ≤
      max ((es.getD (k + 1) (0, 0)).1)
          (((schedList 0 es).getD k (0, 0)).1 + ((schedList 0 es).getD k (0, 0)).2) ∧
    cursorAfter 0 (es.take (k + 2)) =
      ((schedList 0 es).getD (k + 1) (0, 0)).1 +
        ((schedList 0 es).getD (k + 1) (0, 0)).2 := by
  have hkey := schedList_getD_succ es 0 k h
  refine ⟨?_, ?_, ?_⟩
  · rw [hkey]
    exact le_max_right _ _
  · rw [hkey]
  · exact cursorAfter_take es 0 (k + 1) h

/-- Witness for C1 at the concrete event list [(0, 1), (2, 3)], k = 0. -/
theorem C1_playback_scheduling_witness :
    0 + 1 < ([((0 : ℚ), (1 : ℚ)), (2, 3)]).length ∧
    (((schedList 0 [((0 : ℚ), (1 : ℚ)), (2, 3)]).getD 1 (0, 0)).1 ≥
      ((schedList 0 [((0 : ℚ), (1 : ℚ)), (2, 3)]).getD 0 (0, 0)).1 +
        ((schedList 0 [((0 : ℚ), (1 : ℚ)), (2, 3)]).getD 0 (0, 0)).2 ∧
    ((schedList 0 [((0 : ℚ), (1 : ℚ)), (2, 3)]).getD 1 (0, 0)).1 ≤
      max ((([((0 : ℚ), (1 : ℚ)), (2, 3)]).getD 1 (0, 0)).1)
          (((schedList 0 [((0 : ℚ), (1 : ℚ)), (2, 3)]).getD 0 (0, 0)).1 +
            ((schedList 0 [((0 : ℚ), (1 : ℚ)), (2, 3)]).getD 0 (0, 0)).2) ∧
    cursorAfter 0 (([((0 : ℚ), (1 : ℚ)), (2, 3)]).take 2) =
      ((schedList 0 [((0 : ℚ), (1 : ℚ)), (2, 3)]).getD 1 (0, 0)).1 +
        ((schedList 0 [((0 : ℚ), (1 : ℚ)), (2, 3)]).getD 1 (0, 0)).2) :=
  ⟨by decide, C1_playback_scheduling [((0 : ℚ), (1 : ℚ)), (2, 3)] 0 (by decide)⟩

/-- C7: each outbound frame is the base64 encoding of the little-endian
byte packing of the per-sample conversion `s * 32768` truncated and
wrapped modulo 2^16 into the signed 16-bit range (stated as equality of
the implementation frame with the spec-worded conversion); the
out-of-range sample 1.0 wraps to -32768; exactly one frame is sent per
captured block; the block size is 4096 samples; the frame MIME type is
`audio/pcm;rate=16000`. -/
theorem C7_pcm_outbound_frame :
    (∀ samples : List ℚ, onaudioprocessFrame samples =
      { data := encode ((samples.map specToInt16).flatMap int16ToBytes)
        mimeType := "audio/pcm;rate=16000" }) ∧
    toInt16 1 = -32768 ∧
    (∀ blocks : List (List ℚ), (sentFrames blocks).length = blocks.length) ∧
    scriptProcessorBlockSize = 4096 := by
  refine ⟨?_, ?_, ?_, rfl⟩
  · intro samples
    have hf : toInt16 = specToInt16 := funext toInt16_eq_spec
    simp [onaudioprocessFrame, pcmBytes, hf]
  · have h0 : ((1 : ℚ) * 32768) = ((32768 : ℤ) : ℚ) := by norm_num
    have hj : jsTrunc (1 * 32768) = 32768 := by
      unfold jsTrunc
      rw [h0, if_neg (by norm_num), Int.floor_intCast]
    unfold toInt16
    rw [hj]
    decide
  · intro blocks
    simp [sentFrames]

/-- C9: the base64 helpers round-trip: decoding an encoded byte array
returns exactly the original bytes. -/
theorem C9_base64_roundtrip (bytes : List Nat) (h : ∀ b ∈ bytes, b < 256) :
    decode (encode bytes) = bytes := by
  unfold decode encode
  rw [atob_btoa bytes h]
  exact map_mod_256_of_lt bytes h

/-- Witness for C9 at the concrete byte array [0, 255, 77, 1]. -/
theorem C9_base64_roundtrip_witness :
    (∀ b ∈ [0, 255, 77, 1], b < 256) ∧
    decode (encode [0, 255, 77, 1]) = [0, 255, 77, 1] :=
  ⟨by decide, C9_base64_roundtrip [0, 255, 77, 1] (by decide)⟩

theorem V1.audioBranch_refs_v1 (m : LiveServerMessage) (now : ℚ) (s : V1.State) :
    (V1.audioBranch m now s).sessionMode = s.sessionMode ∧
    (V1.audioBranch m now s).transcription = s.transcription ∧
    (V1.audioBranch m now s).userRef = s.userRef ∧
    (V1.audioBranch m now s).aiRef = s.aiRef := by
  unfold V1.audioBranch
  cases m.audioData <;> simp

theorem V1.audioBranch_detached_v1 (m : LiveServerMessage) (now : ℚ) (s : V1.State) :
    (V1.audioBranch m now s).audio.detached = s.audio.detached := by
  unfold V1.audioBranch
  cases m.audioData <;> simp [audioStep]

theorem V1.inputTranscriptionBranch_none (m : LiveServerMessage) (s : V1.State)
    (h : m.inputTranscription = none) : V1.inputTranscriptionBranch m s = s := by
  unfold V1.inputTranscriptionBranch
  rw [h]

theorem V1.outputTranscriptionBranch_none (m : LiveServerMessage) (s : V1.State)
    (h : m.outputTranscription = none) : V1.outputTranscriptionBranch m s = s := by
  unfold V1.outputTranscriptionBranch
  rw [h]

theorem V1.inputTranscriptionBranch_audio (m : LiveServerMessage) (s : V1.State) :
    (V1.inputTranscriptionBranch m s).audio = s.audio := by
  unfold V1.inputTranscriptionBranch
  cases m.inputTranscription <;> simp

theorem V1.outputTranscriptionBranch_audio (m : LiveServerMessage) (s : V1.State) :
    (V1.outputTranscriptionBranch m s).audio = s.audio := by
  unfold V1.outputTranscriptionBranch
  cases m.outputTranscription <;> simp

theorem V1.turnCompleteBranch_audio_v1 (m : LiveServerMessage) (s : V1.State) :
    (V1.turnCompleteBranch m s).audio = s.audio := by
  unfold V1.turnCompleteBranch
  by_cases htc : m.turnComplete = true
  · rw [if_pos htc]
    by_cases hm : s.sessionMode = SessionMode.roleplay
    · simp [hm]
    · simp [hm]
  · rw [if_neg htc]

theorem V2.audioBranch_refs_v2 (m : LiveServerMessage) (now : ℚ) (s : V2.State) :
    (V2.audioBranch m now s).transcription = s.transcription ∧
    (V2.audioBranch m now s).userRef = s.userRef ∧
    (V2.audioBranch m now s).aiRef = s.aiRef := by
  unfold V2.audioBranch
  cases m.audioData <;> simp

theorem V2.audioBranch_detached_v2 (m : LiveServerMessage) (now : ℚ) (s : V2.State) :
    (V2.audioBranch m now s).audio.detached = s.audio.detached := by
  unfold V2.audioBranch
  cases m.audioData <;> simp [audioStep]

theorem V2.transcriptionBranch_none (m : LiveServerMessage) (s : V2.State)
    (h1 : m.inputTranscription = none) (h2 : m.outputTranscription = none) :
    V2.transcriptionBranch m s = s := by
  unfold V2.transcriptionBranch
  rw [h1, h2]

theorem V2.transcriptionBranch_audio (m : LiveServerMessage) (s : V2.State) :
    (V2.transcriptionBranch m s).audio = s.audio := by
  unfold V2.transcriptionBranch
  cases m.inputTranscription <;> cases m.outputTranscription <;> simp

theorem V2.turnCompleteBranch_audio_v2 (m : LiveServerMessage) (s : V2.State) :
    (V2.turnCompleteBranch m s).audio = s.audio := by
  unfold V2.turnCompleteBranch
  split <;> simp

theorem V2.interruptedBranch_nonAudio (m : LiveServerMessage) (s : V2.State) :
    (V2.interruptedBranch m s).transcription = s.transcription ∧
    (V2.interruptedBranch m s).userRef = s.userRef ∧
    (V2.interruptedBranch m s).aiRef = s.aiRef := by
  unfold V2.interruptedBranch
  split <;> simp

/-- C2 counterexample: the grooming-capable variant (one of the two
session-controller variants the claim covers) has no `interrupted`
handling: an interruption-only message leaves a pending scheduled
source in the live set (and the cursor untouched), so the claim does
not hold in both variants. -/
theorem C2_interruption_counterexample :
    (V1.onmessage
        { audioData := none, inputTranscription := none,
          outputTranscription := none, turnComplete := false, interrupted := true }
        0
        { sessionMode := SessionMode.roleplay, isActive := true,
          status := Status.active, transcription := [], curUser := "", curAi := "",
          userRef := "", aiRef := "", session := true, stream := none, released := [],
          audio := { live := [{ start := 0, dur := 1, stopped := false }],
                     detached := [], nextStartTime := 1 } }).audio.live =
      [{ start := 0, dur := 1, stopped := false }] ∧
    ([{ start := (0 : ℚ), dur := 1, stopped := false }] : List Source) ≠ [] := by
  constructor
  · rfl
  · simp

/-- C2 (amended): in the roleplay-only variant, a message carrying the
interruption flag leaves the live-source set empty, resets the
scheduling cursor to zero, and every source it detaches is stopped; the
grooming-capable variant ignores the interruption flag entirely — a
message with no audio payload leaves its playback state unchanged
whatever its flags. -/
theorem C2_interruption_barge_in :
    (∀ (m : LiveServerMessage) (now : ℚ) (s : V2.State), m.interrupted = true →
      (V2.onmessage m now s).audio.live = [] ∧
      (V2.onmessage m now s).audio.nextStartTime = 0 ∧
      ∀ src ∈ (V2.onmessage m now s).audio.detached,
        src.stopped = true ∨ src ∈ s.audio.detached) ∧
    (∀ (m : LiveServerMessage) (now : ℚ) (s : V1.State), m.audioData = none →
      (V1.onmessage m now s).audio = s.audio) := by
  constructor
  · intro m now s hint
    unfold V2.onmessage V2.interruptedBranch
    rw [if_pos hint]
    refine ⟨rfl, rfl, ?_⟩
    intro src hsrc
    simp only [List.mem_append, List.mem_map] at hsrc
    rcases hsrc with hsrc | ⟨y, _, hy⟩
    · right
      rw [V2.turnCompleteBranch_audio_v2, V2.transcriptionBranch_audio,
        V2.audioBranch_detached_v2] at hsrc
      exact hsrc
    · left
      rw [← hy, stopCaught_stopped]
  · intro m now s ha
    unfold V1.onmessage
    rw [V1.turnCompleteBranch_audio_v1, V1.outputTranscriptionBranch_audio,
      V1.inputTranscriptionBranch_audio]
    unfold V1.audioBranch
    rw [ha]

/-- Witness for C2 (amended) at a concrete interrupted-only message and
concrete states of both variants. -/
theorem C2_interruption_barge_in_witness :
    ((LiveServerMessage.mk none none none false true).interrupted = true ∧
      (V2.onmessage (LiveServerMessage.mk none none none false true) 0
        { isActive := true, status := Status.active, transcription := [],
          curUser := "", curAi := "", userRef := "", aiRef := "", session := true,
          stream := none, released := [],
          audio := { live := [{ start := 0, dur := 1, stopped := false }],
                     detached := [], nextStartTime := 1 } }).audio.live = [] ∧
      (V2.onmessage (LiveServerMessage.mk none none none false true) 0
        { isActive := true, status := Status.active, transcription := [],
          curUser := "", curAi := "", userRef := "", aiRef := "", session := true,
          stream := none, released := [],
          audio := { live := [{ start := 0, dur := 1, stopped := false }],
                     detached := [], nextStartTime := 1 } }).audio.nextStartTime = 0) ∧
    ((LiveServerMessage.mk none none none false true).audioData = none ∧
      (V1.onmessage (LiveServerMessage.mk none none none false true) 0
        { sessionMode := SessionMode.grooming, isActive := true,
          status := Status.active, transcription := [], curUser := "", curAi := "",
          userRef := "", aiRef := "", session := true, stream := none, released := [],
          audio := { live := [], detached := [], nextStartTime := 0 } }).audio =
        { live := [], detached := [], nextStartTime := 0 }) := by
  constructor
  · exact ⟨rfl, (C2_interruption_barge_in.1 _ 0 _ rfl).1,
      (C2_interruption_barge_in.1 _ 0 _ rfl).2.1⟩
  · exact ⟨rfl, C2_interruption_barge_in.2 _ 0 _ rfl⟩

/-- C3 counterexample: in the grooming-capable variant `stopPractice`
does not clear the partial transcript accumulators: stopping a session
whose user accumulator holds "hello" leaves it holding "hello", so the
claim's "partial transcript buffers cleared" fails for every session
state of that variant. -/
theorem C3_stop_counterexample :
    (V1.stopPractice
        { sessionMode := SessionMode.grooming, isActive := true,
          status := Status.active, transcription := [], curUser := "hello",
          curAi := "", userRef := "hello", aiRef := "", session := true,
          stream := none, released := [],
          audio := { live := [], detached := [], nextStartTime := 0 } }).userRef =
      "hello" ∧
    ("hello" : String) ≠ "" := by
  exact ⟨rfl, by decide⟩

/-- C3 (amended): in both variants, stopping empties the live-source
set (every source it detaches is stopped), resets the scheduling cursor
to zero, stops every track released from the current stream, nulls the
stream reference and nulls the channel handle; the roleplay-only
variant additionally clears both partial transcript accumulators, but
the grooming-capable variant preserves them (they feed the
post-session audit). -/
theorem C3_stop_teardown :
    (∀ s : V2.State,
      (V2.stopPractice s).audio.live = [] ∧
      (V2.stopPractice s).audio.nextStartTime = 0 ∧
      (V2.stopPractice s).stream = none ∧
      (V2.stopPractice s).session = false ∧
      (∀ t ∈ (V2.stopPractice s).released, t.stopped = true ∨ t ∈ s.released) ∧
      (∀ src ∈ (V2.stopPractice s).audio.detached,
        src.stopped = true ∨ src ∈ s.audio.detached) ∧
      (V2.stopPractice s).userRef = "" ∧
      (V2.stopPractice s).aiRef = "") ∧
    (∀ s : V1.State,
      (V1.stopPractice s).audio.live = [] ∧
      (V1.stopPractice s).audio.nextStartTime = 0 ∧
      (V1.stopPractice s).stream = none ∧
      (V1.stopPractice s).session = false ∧
      (∀ t ∈ (V1.stopPractice s).released, t.stopped = true ∨ t ∈ s.released) ∧
      (∀ src ∈ (V1.stopPractice s).audio.detached,
        src.stopped = true ∨ src ∈ s.audio.detached) ∧
      (V1.stopPractice s).userRef = s.userRef ∧
      (V1.stopPractice s).aiRef = s.aiRef) := by
  constructor
  · intro s
    refine ⟨rfl, rfl, rfl, rfl, ?_, ?_, rfl, rfl⟩
    · intro t ht
      simp only [V2.stopPractice, List.mem_append, List.mem_map] at ht
      rcases ht with ht | ⟨y, _, hy⟩
      · exact Or.inr ht
      · exact Or.inl (by rw [← hy]; rfl)
    · intro src hsrc
      simp only [V2.stopPractice, List.mem_append, List.mem_map] at hsrc
      rcases hsrc with hsrc | ⟨y, _, hy⟩
      · exact Or.inr hsrc
      · exact Or.inl (by rw [← hy, stopCaught_stopped])
  · intro s
    refine ⟨rfl, rfl, rfl, rfl, ?_, ?_, rfl, rfl⟩
    · intro t ht
      simp only [V1.stopPractice, List.mem_append, List.mem_map] at ht
      rcases ht with ht | ⟨y, _, hy⟩
      · exact Or.inr ht
      · exact Or.inl (by rw [← hy]; rfl)
    · intro src hsrc
      simp only [V1.stopPractice, List.mem_append, List.mem_map] at hsrc
      rcases hsrc with hsrc | ⟨y, _, hy⟩
      · exact Or.inr hsrc
      · exact Or.inl (by rw [← hy, stopCaught_stopped])

/-- Witness for C3 (amended) at a concrete stopped state with one
unstopped track on the stream and one live source. -/
theorem C3_stop_teardown_witness :
    (({ stopped := true } : Track) ∈
      (V2.stopPractice
        { isActive := true, status := Status.active, transcription := [],
          curUser := "", curAi := "", userRef := "u", aiRef := "a", session := true,
          stream := some [{ stopped := false }], released := [],
          audio := { live := [{ start := 0, dur := 1, stopped := false }],
                     detached := [], nextStartTime := 1 } }).released) ∧
    (({ stopped := true } : Track).stopped = true ∨
      ({ stopped := true } : Track) ∈
        ({ isActive := true, status := Status.active, transcription := [],
           curUser := "", curAi := "", userRef := "u", aiRef := "a", session := true,
           stream := some [{ stopped := false }], released := [],
           audio := { live := [{ start := 0, dur := 1, stopped := false }],
                      detached := [], nextStartTime := 1 } } : V2.State).released) :=
  ⟨by decide,
   (C3_stop_teardown.1
      { isActive := true, status := Status.active, transcription := [],
        curUser := "", curAi := "", userRef := "u", aiRef := "a", session := true,
        stream := some [{ stopped := false }], released := [],
        audio := { live := [{ start := 0, dur := 1, stopped := false }],
                   detached := [], nextStartTime := 1 } }).2.2.2.2.1
     { stopped := true } (by decide)⟩

/-- C4 counterexample: in the grooming-capable variant in grooming
mode, a turn-complete signal does not reset the agent accumulator
either (the claim says it is still reset): with the agent accumulator
holding "agent", it still holds "agent" afterwards. -/
theorem C4_turn_complete_counterexample :
    (V1.onmessage
        { audioData := none, inputTranscription := none,
          outputTranscription := none, turnComplete := true, interrupted := false }
        0
        { sessionMode := SessionMode.grooming, isActive := true,
          status := Status.active, transcription := [], curUser := "user",
          curAi := "agent", userRef := "user", aiRef := "agent", session := true,
          stream := none, released := [],
          audio := { live := [], detached := [], nextStartTime := 0 } }).aiRef =
      "agent" ∧
    ("agent" : String) ≠ "" := by
  exact ⟨rfl, by decide⟩

/-- C4 (amended): on a pure turn-complete signal exactly one pair (the
current accumulator contents) is appended to the ordered history; the
roleplay-only variant, and the grooming-capable variant in roleplay
mode, reset both accumulators; in grooming mode the grooming-capable
variant preserves both accumulators — the agent accumulator is not
reset either. -/
theorem C4_turn_complete_accumulation :
    (∀ (m : LiveServerMessage) (now : ℚ) (s : V2.State),
      m.turnComplete = true → m.inputTranscription = none →
      m.outputTranscription = none →
        (V2.onmessage m now s).transcription =
          s.transcription ++ [{ user := s.userRef, ai := s.aiRef }] ∧
        (V2.onmessage m now s).userRef = "" ∧
        (V2.onmessage m now s).aiRef = "") ∧
    (∀ (m : LiveServerMessage) (now : ℚ) (s : V1.State),
      m.turnComplete = true → m.inputTranscription = none →
      m.outputTranscription = none → s.sessionMode = SessionMode.roleplay →
        (V1.onmessage m now s).transcription =
          s.transcription ++ [{ user := s.userRef, ai := s.aiRef }] ∧
        (V1.onmessage m now s).userRef = "" ∧
        (V1.onmessage m now s).aiRef = "") ∧
    (∀ (m : LiveServerMessage) (now : ℚ) (s : V1.State),
      m.turnComplete = true → m.inputTranscription = none →
      m.outputTranscription = none → s.sessionMode = SessionMode.grooming →
        (V1.onmessage m now s).transcription =
          s.transcription ++ [{ user := s.userRef, ai := s.aiRef }] ∧
        (V1.onmessage m now s).userRef = s.userRef ∧
        (V1.onmessage m now s).aiRef = s.aiRef) := by
  refine ⟨?_, ?_, ?_⟩
  · intro m now s htc h1 h2
    unfold V2.onmessage
    rw [V2.transcriptionBranch_none m _ h1 h2]
    have hA := V2.audioBranch_refs_v2 m now s
    unfold V2.turnCompleteBranch
    rw [if_pos htc]
    refine ⟨?_, ?_, ?_⟩
    · rw [(V2.interruptedBranch_nonAudio m _).1]
      simp [hA.1, hA.2.1, hA.2.2]
    · rw [(V2.interruptedBranch_nonAudio m _).2.1]
    · rw [(V2.interruptedBranch_nonAudio m _).2.2]
  · intro m now s htc h1 h2 hmode
    unfold V1.onmessage
    rw [V1.inputTranscriptionBranch_none m _ h1, V1.outputTranscriptionBranch_none m _ h2]
    have hA := V1.audioBranch_refs_v1 m now s
    have hm : (V1.audioBranch m now s).sessionMode = SessionMode.roleplay := by
      rw [hA.1, hmode]
    unfold V1.turnCompleteBranch
    rw [if_pos htc]
    simp [hm, hA.2.1, hA.2.2.1, hA.2.2.2]
  · intro m now s htc h1 h2 hmode
    unfold V1.onmessage
    rw [V1.inputTranscriptionBranch_none m _ h1, V1.outputTranscriptionBranch_none m _ h2]
    have hA := V1.audioBranch_refs_v1 m now s
    have hm : (V1.audioBranch m now s).sessionMode = SessionMode.grooming := by
      rw [hA.1, hmode]
    unfold V1.turnCompleteBranch
    rw [if_pos htc]
    simp [hm, hA.2.1, hA.2.2.1, hA.2.2.2]

/-- Witness for C4 (amended) at a concrete pure turn-complete message
and a concrete grooming-mode state with accumulators "user"/"agent". -/
theorem C4_turn_complete_accumulation_witness :
    ((LiveServerMessage.mk none none none true false).turnComplete = true ∧
     (LiveServerMessage.mk none none none true false).inputTranscription = none ∧
     (LiveServerMessage.mk none none none true false).outputTranscription = none) ∧
    ((V1.onmessage (LiveServerMessage.mk none none none true false) 0
        { sessionMode := SessionMode.grooming, isActive := true,
          status := Status.active, transcription := [], curUser := "user",
          curAi := "agent", userRef := "user", aiRef := "agent", session := true,
          stream := none, released := [],
          audio := { live := [], detached := [], nextStartTime := 0 } }).transcription =
      [] ++ [{ user := "user", ai := "agent" }] ∧
     (V1.onmessage (LiveServerMessage.mk none none none true false) 0
        { sessionMode := SessionMode.grooming, isActive := true,
          status := Status.active, transcription := [], curUser := "user",
          curAi := "agent", userRef := "user", aiRef := "agent", session := true,
          stream := none, released := [],
          audio := { live := [], detached := [], nextStartTime := 0 } }).userRef =
      "user" ∧
     (V1.onmessage (LiveServerMessage.mk none none none true false) 0
        { sessionMode := SessionMode.grooming, isActive := true,
          status := Status.active, transcription := [], curUser := "user",
          curAi := "agent", userRef := "user", aiRef := "agent", session := true,
          stream := none, released := [],
          audio := { live := [], detached := [], nextStartTime := 0 } }).aiRef =
      "agent") :=
  ⟨⟨rfl, rfl, rfl⟩,
   C4_turn_complete_accumulation.2.2 (LiveServerMessage.mk none none none true false) 0
     { sessionMode := SessionMode.grooming, isActive := true,
       status := Status.active, transcription := [], curUser := "user",
       curAi := "agent", userRef := "user", aiRef := "agent", session := true,
       stream := none, released := [],
       audio := { live := [], detached := [], nextStartTime := 0 } }
     rfl rfl rfl rfl⟩

/-- C5 counterexample: a channel-open failure after the microphone was
acquired sets the error status but performs no teardown — the stream
reference still holds the live microphone stream (teardown would null
it); and a mid-session transport error does not leave the session in
the error state: `onerror` calls `stopPractice`, whose `setStatus` ends
the session in `idle`. -/
theorem C5_failure_counterexample :
    (V2.startPractice (some [{ stopped := false }]) false
        { isActive := false, status := Status.idle, transcription := [],
          curUser := "", curAi := "", userRef := "", aiRef := "", session := false,
          stream := none, released := [],
          audio := { live := [], detached := [], nextStartTime := 0 } }).status =
      Status.error ∧
    (V2.startPractice (some [{ stopped := false }]) false
        { isActive := false, status := Status.idle, transcription := [],
          curUser := "", curAi := "", userRef := "", aiRef := "", session := false,
          stream := none, released := [],
          audio := { live := [], detached := [], nextStartTime := 0 } }).stream =
      some [{ stopped := false }] ∧
    (some [({ stopped := false } : Track)] ≠ (none : Option (List Track))) ∧
    (V2.onerror
        { isActive := true, status := Status.active, transcription := [],
          curUser := "", curAi := "", userRef := "", aiRef := "", session := true,
          stream := none, released := [],
          audio := { live := [], detached := [], nextStartTime := 0 } }).status =
      Status.idle := by
  exact ⟨rfl, rfl, by simp, rfl⟩

/-- C5 (amended): every modelled failure is caught. Microphone denial
sets the error status and leaves the stream reference unchanged; a
channel-open failure after microphone acquisition sets the error status
but keeps the acquired stream (no teardown is invoked on the start
path). A mid-session transport error invokes full teardown via
`stopPractice` (stream and channel nulled, sources cleared, cursor
reset), whose status write ends the session in `idle`, overwriting the
transient error status. No retry appears anywhere in the model. Both
variants behave alike. -/
theorem C5_failure_handling :
    (∀ (s : V1.State) (c : Bool),
      (V1.startPractice none c s).status = Status.error ∧
      (V1.startPractice none c s).stream = s.stream) ∧
    (∀ (s : V1.State) (ts : List Track),
      (V1.startPractice (some ts) false s).status = Status.error ∧
      (V1.startPractice (some ts) false s).stream = some ts) ∧
    (∀ s : V1.State,
      (V1.onerror s).status = Status.idle ∧
      (V1.onerror s).stream = none ∧
      (V1.onerror s).session = false ∧
      (V1.onerror s).audio.live = [] ∧
      (V1.onerror s).audio.nextStartTime = 0) ∧
    (∀ (s : V2.State) (c : Bool),
      (V2.startPractice none c s).status = Status.error ∧
      (V2.startPractice none c s).stream = s.stream) ∧
    (∀ (s : V2.State) (ts : List Track),
      (V2.startPractice (some ts) false s).status = Status.error ∧
      (V2.startPractice (some ts) false s).stream = some ts) ∧
    (∀ s : V2.State,
      (V2.onerror s).status = Status.idle ∧
      (V2.onerror s).stream = none ∧
      (V2.onerror s).session = false ∧
      (V2.onerror s).audio.live = [] ∧
      (V2.onerror s).audio.nextStartTime = 0) := by
  refine ⟨?_, ?_, ?_, ?_, ?_, ?_⟩
  · intro s c; exact ⟨rfl, rfl⟩
  · intro s ts; exact ⟨rfl, rfl⟩
  · intro s
    refine ⟨?_, rfl, rfl, rfl, rfl⟩
    unfold V1.onerror V1.stopPractice
    simp
  · intro s c; exact ⟨rfl, rfl⟩
  · intro s ts; exact ⟨rfl, rfl⟩
  · intro s; exact ⟨rfl, rfl, rfl, rfl, rfl⟩

/-- C6: stopping is idempotent in both variants — a second
`stopPractice` is a no-op on the state the first one produced — and the
guarded `try { source.stop() } catch {}` call is total: it never
propagates an error and always yields a stopped source, so stopping an
already-stopped source is tolerated. -/
theorem C6_stop_idempotent :
    (∀ s : V1.State, V1.stopPractice (V1.stopPractice s) = V1.stopPractice s) ∧
    (∀ s : V2.State, V2.stopPractice (V2.stopPractice s) = V2.stopPractice s) ∧
    (∀ src : Source, Source.stopCaught src = { src with stopped := true }) := by
  refine ⟨?_, ?_, stopCaught_stopped⟩
  · intro s
    unfold V1.stopPractice
    by_cases h : s.status = Status.analyzing <;> simp [h]
  · intro s
    simp [V2.stopPractice]

/-- C8 counterexample: an error message containing both "429" and
"Requested entity was not found" takes the quota branch (the quota
check runs first), so the key re-selection remediation is not invoked
even though the message indicates the requested entity was not found —
the claim's second conditional fails. -/
theorem C8_video_error_counterexample :
    containsSub "429 Requested entity was not found"
      "Requested entity was not found" = true ∧
    (handleGenerateVideoFailure
      "429 Requested entity was not found").reselectInvoked = false ∧
    (handleGenerateVideoFailure
      "429 Requested entity was not found").surfaced = quotaMessage := by
  refine ⟨by decide, by decide, by decide⟩

/-- C8 (amended): a failure whose message contains "429" or
"RESOURCE_EXHAUSTED" surfaces the distinct quota-exhausted message with
no remediation; a failure whose message indicates the requested entity
was not found — and does not also match the quota patterns, which are
checked first — invokes the key re-selection remediation and surfaces
the distinct re-select-key message; the two surfaced messages differ. -/
theorem C8_video_error_discrimination :
    (∀ msg : String,
      (containsSub msg "429" || containsSub msg "RESOURCE_EXHAUSTED") = true →
        handleGenerateVideoFailure msg =
          { surfaced := quotaMessage, reselectInvoked := false }) ∧
    (∀ msg : String,
      containsSub msg "429" = false →
      containsSub msg "RESOURCE_EXHAUSTED" = false →
      containsSub msg "Requested entity was not found" = true →
        handleGenerateVideoFailure msg =
          { surfaced := reselectMessage, reselectInvoked := true }) ∧
    quotaMessage ≠ reselectMessage := by
  refine ⟨?_, ?_, by decide⟩
  · intro msg h
    unfold handleGenerateVideoFailure
    rw [if_pos h]
  · intro msg h1 h2 h3
    unfold handleGenerateVideoFailure
    rw [if_neg (by simp [h1, h2]), if_pos h3]

/-- Witness for C8 (amended) at the concrete messages "429" and
"Requested entity was not found". -/
theorem C8_video_error_discrimination_witness :
    ((containsSub "429" "429" || containsSub "429" "RESOURCE_EXHAUSTED") = true ∧
      handleGenerateVideoFailure "429" =
        { surfaced := quotaMessage, reselectInvoked := false }) ∧
    (containsSub "Requested entity was not found" "429" = false ∧
      containsSub "Requested entity was not found" "RESOURCE_EXHAUSTED" = false ∧
      containsSub "Requested entity was not found"
        "Requested entity was not found" = true ∧
      handleGenerateVideoFailure "Requested entity was not found" =
        { surfaced := reselectMessage, reselectInvoked := true }) :=
  ⟨⟨by decide, C8_video_error_discrimination.1 "429" (by decide)⟩,
   ⟨by decide, by decide, by decide,
    C8_video_error_discrimination.2.1 "Requested entity was not found"
      (by decide) (by decide) (by decide)⟩⟩

/-- C10: `fetchDocumentsFromFirebase` returns the empty list whenever
the database handle, the auth handle or the signed-in user is missing,
or the query fails; on success it returns the user's documents sorted
by timestamp in non-increasing order (a permutation of the mapped query
result), and a document with no timestamp gets the current time. -/
theorem C10_fetch_documents :
    (∀ (auth : Bool) (u : Option String) (q : Except Unit (List FirestoreDoc))
        (now : Int), fetchDocumentsFromFirebase false auth u q now = []) ∧
    (∀ (db : Bool) (u : Option String) (q : Except Unit (List FirestoreDoc))
        (now : Int), fetchDocumentsFromFirebase db false u q now = []) ∧
    (∀ (db auth : Bool) (q : Except Unit (List FirestoreDoc)) (now : Int),
      fetchDocumentsFromFirebase db auth none q now = []) ∧
    (∀ (db auth : Bool) (u : Option String) (now : Int),
      fetchDocumentsFromFirebase db auth u (Except.error ()) now = []) ∧
    (∀ (u : String) (docs : List FirestoreDoc) (now : Int),
      (fetchDocumentsFromFirebase true true (some u) (Except.ok docs) now).Pairwise
        (fun a b => b.timestamp ≤ a.timestamp) ∧
      List.Perm (fetchDocumentsFromFirebase true true (some u) (Except.ok docs) now)
        (docs.map (toStoredDocument now))) ∧
    (∀ (now : Int) (d : FirestoreDoc), d.timestamp = none →
      (toStoredDocument now d).timestamp = now) := by
  refine ⟨?_, ?_, ?_, ?_, ?_, ?_⟩
  · intro auth u q now; rfl
  · intro db u q now; cases db <;> rfl
  · intro db auth q now; cases db <;> cases auth <;> rfl
  · intro db auth u now; cases db <;> cases auth <;> cases u <;> rfl
  · intro u docs now
    constructor
    · exact sortDesc_pairwise (docs.map (toStoredDocument now))
    · exact sortDesc_perm (docs.map (toStoredDocument now))
  · intro now d h
    simp [toStoredDocument, jsFalsyOr, h]

/-- Witness for C10 at a concrete environment: a document with no
timestamp mapped at current time 5, and the guard cases at concrete
arguments. -/
theorem C10_fetch_documents_witness :
    ({ id := "a", name := "n", content := "c", type := "t",
       timestamp := none, updatedAt := none } : FirestoreDoc).timestamp = none ∧
    (toStoredDocument 5
      { id := "a", name := "n", content := "c", type := "t",
        timestamp := none, updatedAt := none }).timestamp = 5 ∧
    fetchDocumentsFromFirebase false true (some "u")
      (Except.ok ([] : List FirestoreDoc)) 0 = [] :=
  ⟨rfl,
   C10_fetch_documents.2.2.2.2.2 5
     { id := "a", name := "n", content := "c", type := "t",
       timestamp := none, updatedAt := none } rfl,
   C10_fetch_documents.1 true (some "u") (Except.ok []) 0⟩
